import Mathlib

/-!
# Verification of the `RunCmd` command runner (`src/runcmd.rs`)

Shallow embedding of the `RunCmd` struct and its methods `new`, `verbose`,
`shell`, `execute` and `execute_output`.

Modelling decisions, all taken from the Rust source:

* The runner's mutable state (`self`) is passed explicitly: each method
  becomes a function `RunCmd → ... → result × RunCmd` returning the state as
  it stands when the method returns or panics.  Mutations happen in source
  order, so the state paired with a panic is the partially-updated `self`.
* The behaviour of the spawned child process is an explicit `ChildOutcome`
  argument: either the spawn itself fails (`executor.execute_output()`
  returns `Err`, which the source unwraps), or the process runs and either
  exits with a status code or is killed before producing one
  (`output.status.code()` is `None`).
* A captured byte vector is modelled by its UTF-8 decoding: `some s` for a
  vector that decodes to the string `s`, `none` for invalid bytes, on which
  `String::from_utf8(...).unwrap()` panics.  When stdio is inherited rather
  than piped, `std::process::Output` carries empty vectors, modelled as
  `some ""`.
* Rust panics are modelled by `Except Panic`; `println!` side effects carry
  no state and are not modelled.
* `i32` exit codes are modelled as `Int`; no arithmetic is performed on them.
* The field `execute: bool` of the Rust struct is named `executeFlag` here,
  because the method `execute` already takes the name `RunCmd.execute`.
* The unfinished `interactive` method is not part of any execution path (and
  does not compile in the source); it is not modelled.
-/

namespace RunCmdModel

/-- The `RunCmdOutput` struct of the source: command, captured stdout and
stderr text, and the exit code. -/
structure RunCmdOutput where
  cmd : String
  stdout : String
  stderr : String
  exitcode : Int
deriving DecidableEq

/-- The `RunCmd` struct of the source.  The source field `execute` is named
`executeFlag` here; `retval` is the stored result. -/
structure RunCmd where
  retval : RunCmdOutput
  verbose : Bool
  executeFlag : Bool
  shell : Bool
deriving DecidableEq

/-- The distinct Rust panic sites of `runcmd.rs`: the `.unwrap()` on
`String::from_utf8`, the `.unwrap()` on `executor.execute_output()`, and the
explicit `panic!("Exitcode != 0")` in `execute`. -/
inductive Panic where
  | invalidUtf8
  | spawnFailure
  | exitcodeNonzero
deriving DecidableEq

/-- One run of the child process, as observed by `execute_output`:
`spawnError` when `executor.execute_output()` itself returns `Err`;
`ran status outBytes errBytes` when a process ran, `status` being
`output.status.code()` and the byte vectors being modelled by their UTF-8
decoding (`none` = invalid bytes).  The byte-vector fields describe what the
child wrote; they reach the `Output` only when the streams are piped. -/
inductive ChildOutcome where
  | spawnError
  | ran (status : Option Int) (outBytes errBytes : Option String)
deriving DecidableEq

/-- `RunCmd::new`: stores the command with empty stdout/stderr, exit code 0,
and all three flags `false`. -/
def RunCmd.new (cmd : String) : RunCmd :=
  { retval := { cmd := cmd, stdout := "", stderr := "", exitcode := 0 },
    verbose := false,
    executeFlag := false,
    shell := false }

/-- `RunCmd::verbose` (named `setVerbose` to keep the field name): sets the
`verbose` flag and returns the same runner for chaining. -/
def RunCmd.setVerbose (s : RunCmd) : RunCmd :=
  { s with verbose := true }

/-- `RunCmd::shell` (named `setShell` to keep the field name): sets the
`shell` flag and returns the same runner for chaining. -/
def RunCmd.setShell (s : RunCmd) : RunCmd :=
  { s with shell := true }

/-- The pipe condition of `execute_output`:
`if self.verbose || !self.execute { executor.stdout(Stdio::piped()); ... }`.
When it is false, stdio is inherited and the `Output` byte vectors are
empty. -/
def captureActive (s : RunCmd) : Bool :=
  s.verbose || !s.executeFlag

/-- `RunCmd::execute_output`.  Chooses `shell(..)` or `command(..)` (both
run the same stored command string; the choice does not change this model's
state), pipes stdout/stderr iff `captureActive`, unwraps the spawn result,
then on a status code stores the code and the decoded stdout and stderr in
source order (each `unwrap` on invalid bytes panics with the state as
mutated so far); with no status code stores the sentinel `-1` and the fixed
diagnostic string, leaving `stdout` untouched.  Returns a clone of the
stored `retval`. -/
def RunCmd.execute_output (s : RunCmd) (e : ChildOutcome) :
    Except Panic RunCmdOutput × RunCmd :=
  match e with
  | ChildOutcome.spawnError => (Except.error Panic.spawnFailure, s)
  | ChildOutcome.ran status outB errB =>
    let obsOut : Option String := if captureActive s then outB else some ""
    let obsErr : Option String := if captureActive s then errB else some ""
    match status with
    | some code =>
      let s1 : RunCmd := { s with retval := { s.retval with exitcode := code } }
      match obsOut with
      | none => (Except.error Panic.invalidUtf8, s1)
      | some so =>
        let s2 : RunCmd := { s1 with retval := { s1.retval with stdout := so } }
        match obsErr with
        | none => (Except.error Panic.invalidUtf8, s2)
        | some se =>
          let s3 : RunCmd := { s2 with retval := { s2.retval with stderr := se } }
          (Except.ok s3.retval, s3)
    | none =>
      let s3 : RunCmd :=
        { s with retval :=
          { s.retval with exitcode := -1, stderr := "Interrupted! in RunCmd" } }
      (Except.ok s3.retval, s3)

/-- `RunCmd::execute`: sets the `execute` mark, runs `execute_output`, and
panics (`"Exitcode != 0"`) unless the returned exit code is zero.  Returns
no output value. -/
def RunCmd.execute (s : RunCmd) (e : ChildOutcome) :
    Except Panic Unit × RunCmd :=
  let s1 : RunCmd := { s with executeFlag := true }
  match s1.execute_output e with
  | (Except.error p, s2) => (Except.error p, s2)
  | (Except.ok rv, s2) =>
    if rv.exitcode ≠ 0 then (Except.error Panic.exitcodeNonzero, s2)
    else (Except.ok (), s2)

/-- The exit code `execute_output` records for a given `output.status.code()`:
the code itself when present, the sentinel `-1` otherwise. -/
def runExitCode : Option Int → Int
  | some c => c
  | none => -1

/-- Runner states reachable through the public API from a construction with
command string `c`: `new`, the two setters, and the states left behind by
`execute` and `execute_output`. -/
inductive Reached : String → RunCmd → Prop where
  | new (c : String) : Reached c (RunCmd.new c)
  | setVerbose (c : String) (s : RunCmd) :
      Reached c s → Reached c s.setVerbose
  | setShell (c : String) (s : RunCmd) :
      Reached c s → Reached c s.setShell
  | execStep (c : String) (s : RunCmd) (e : ChildOutcome) :
      Reached c s → Reached c (s.execute e).2
  | execOutStep (c : String) (s : RunCmd) (e : ChildOutcome) :
      Reached c s → Reached c (s.execute_output e).2

/-- `execute_output` never changes the flags or the stored command string,
whether it returns or panics. -/
theorem execute_output_preserves (s : RunCmd) (e : ChildOutcome) :
    (s.execute_output e).2.verbose = s.verbose ∧
    (s.execute_output e).2.executeFlag = s.executeFlag ∧
    (s.execute_output e).2.shell = s.shell ∧
    (s.execute_output e).2.retval.cmd = s.retval.cmd := by
  rcases e with _ | ⟨status, ob, eb⟩
  · exact ⟨rfl, rfl, rfl, rfl⟩
  · cases hv : s.verbose <;> cases he : s.executeFlag <;>
      cases status <;> cases ob <;> cases eb <;>
      simp [RunCmd.execute_output, captureActive, hv, he]

/-- `execute` never changes the `verbose` and `shell` flags or the stored
command string, and always leaves the `execute` mark set. -/
theorem execute_preserves (s : RunCmd) (e : ChildOutcome) :
    (s.execute e).2.verbose = s.verbose ∧
    (s.execute e).2.executeFlag = true ∧
    (s.execute e).2.shell = s.shell ∧
    (s.execute e).2.retval.cmd = s.retval.cmd := by
  have h := execute_output_preserves { s with executeFlag := true } e
  rcases hout : ({ s with executeFlag := true } : RunCmd).execute_output e with
    ⟨r, s2⟩
  rw [hout] at h
  simp only at h
  rcases r with p | rv
  · simpa [RunCmd.execute, hout] using h
  · by_cases hc : rv.exitcode = 0 <;>
      simp [RunCmd.execute, hout, hc, h.1, h.2.1, h.2.2.1, h.2.2.2]

/-- Every reachable state keeps the construction-time command string. -/
theorem reached_cmd (c : String) (s : RunCmd) (h : Reached c s) :
    s.retval.cmd = c := by
  induction h with
  | new => rfl
  | setVerbose s hp ih => exact ih
  | setShell s hp ih => exact ih
  | execStep s e hp ih => exact (execute_preserves s e).2.2.2.trans ih
  | execOutStep s e hp ih => exact (execute_output_preserves s e).2.2.2.trans ih

/-- Claim C9: a freshly constructed runner holds a stored result of exit
code 0 with empty stdout and stderr and the given command string, all three
flags are `false`, and its retained result is indistinguishable from that of
a successful run that produced no output. -/
theorem C9_fresh_runner (c : String) :
    (RunCmd.new c).retval =
      { cmd := c, stdout := "", stderr := "", exitcode := 0 } ∧
    (RunCmd.new c).verbose = false ∧
    (RunCmd.new c).executeFlag = false ∧
    (RunCmd.new c).shell = false ∧
    ((RunCmd.new c).execute_output
        (ChildOutcome.ran (some 0) (some "") (some ""))).2.retval =
      (RunCmd.new c).retval :=
  ⟨rfl, rfl, rfl, rfl, rfl⟩

/-- Claim C3 (amended): on abnormal termination (no status code) the
result-returning path records the sentinel exit code `-1` and the fixed
diagnostic string in `stderr`, leaves `stdout` unchanged (hence empty on a
fresh runner), and returns the result as data rather than panicking. -/
theorem C3_interrupted_as_data (s : RunCmd) (ob eb : Option String) :
    s.execute_output (ChildOutcome.ran none ob eb) =
      (Except.ok
        { s.retval with exitcode := -1, stderr := "Interrupted! in RunCmd" },
       { s with retval :=
         { s.retval with exitcode := -1, stderr := "Interrupted! in RunCmd" } }) :=
  rfl

/-- Claim C3, counterexample to the claim as stated: after a first captured
run whose stdout is `"x"`, an interrupted second run returns a result whose
`stdout` is the stale `"x"`, not the empty string the claim promises. -/
theorem C3_counterexample :
    ((((RunCmd.new "c").execute_output
        (ChildOutcome.ran (some 0) (some "x") (some ""))).2.execute_output
        (ChildOutcome.ran none (some "") (some ""))).1.map
          (fun r => r.stdout) = Except.ok "x") ∧
    ("x" : String) ≠ "" :=
  ⟨rfl, by decide⟩

/-- Claim C2 (amended): for a normal run with decodable output, the result
carries the child's stdout/stderr exactly when `captureActive` holds, i.e.
when verbose is on or the `execute` mark has not been set; otherwise stdio
is inherited and the stored streams are empty. -/
theorem C2_capture_condition (s : RunCmd) (c : Int) (o er : String) :
    (s.execute_output (ChildOutcome.ran (some c) (some o) (some er))).1 =
      Except.ok
        { s.retval with
          exitcode := c,
          stdout := if captureActive s then o else "",
          stderr := if captureActive s then er else "" } := by
  cases hv : s.verbose <;> cases he : s.executeFlag <;>
    simp [RunCmd.execute_output, captureActive, hv, he]

/-- Claim C2, counterexample to the claim as stated: on a fresh runner both
`verbose` and the `execute` mark are `false`, so the claim predicts
inherited stdio (empty captured streams), yet the code pipes the streams and
the result carries the child's output `"hi"`. -/
theorem C2_counterexample :
    (RunCmd.new "c").verbose = false ∧
    (RunCmd.new "c").executeFlag = false ∧
    ((RunCmd.new "c").execute_output
        (ChildOutcome.ran (some 0) (some "hi") (some ""))).1 =
      Except.ok { cmd := "c", stdout := "hi", stderr := "", exitcode := 0 } :=
  ⟨rfl, rfl, rfl⟩

/-- Claim C8: on normal termination the result-returning path records the
numeric exit code and the captured streams decoded as text; when capture is
active and either stream's bytes are not valid UTF-8, the run panics instead
of storing or discarding anything. -/
theorem C8_decode_or_panic (s : RunCmd) (c : Int) (ob eb : Option String) :
    (s.execute_output (ChildOutcome.ran (some c) ob eb)).1 =
      match (if captureActive s then ob else some ""),
            (if captureActive s then eb else some "") with
      | some so, some se =>
          Except.ok { s.retval with exitcode := c, stdout := so, stderr := se }
      | _, _ => Except.error Panic.invalidUtf8 := by
  cases hv : s.verbose <;> cases he : s.executeFlag <;> cases ob <;> cases eb <;>
    simp [RunCmd.execute_output, captureActive, hv, he]

/-- Claim C7: the setters set their flag, return the runner otherwise
unchanged (so calls chain), are idempotent, and no operation of the API
clears either flag. -/
theorem C7_setters (s : RunCmd) (e : ChildOutcome) :
    s.setVerbose.verbose = true ∧
    s.setShell.shell = true ∧
    s.setVerbose.setVerbose = s.setVerbose ∧
    s.setShell.setShell = s.setShell ∧
    s.setVerbose.shell = s.shell ∧
    s.setVerbose.executeFlag = s.executeFlag ∧
    s.setVerbose.retval = s.retval ∧
    s.setShell.verbose = s.verbose ∧
    s.setShell.executeFlag = s.executeFlag ∧
    s.setShell.retval = s.retval ∧
    (s.execute_output e).2.verbose = s.verbose ∧
    (s.execute_output e).2.shell = s.shell ∧
    (s.execute e).2.verbose = s.verbose ∧
    (s.execute e).2.shell = s.shell :=
  ⟨rfl, rfl, rfl, rfl, rfl, rfl, rfl, rfl, rfl, rfl,
   (execute_output_preserves s e).1, (execute_output_preserves s e).2.2.1,
   (execute_preserves s e).1, (execute_preserves s e).2.2.1⟩

/-- The `cmd` field of a result returned by `execute_output` is the stored
command string. -/
theorem execute_output_result_cmd (s : RunCmd) (e : ChildOutcome)
    (rv : RunCmdOutput) (h : (s.execute_output e).1 = Except.ok rv) :
    rv.cmd = s.retval.cmd := by
  rcases e with _ | ⟨status, ob, eb⟩
  · simp [RunCmd.execute_output] at h
  · cases hv : s.verbose <;> cases he : s.executeFlag <;>
      cases status <;> cases ob <;> cases eb <;>
      simp [RunCmd.execute_output, captureActive, hv, he] at h <;>
      simp [← h]

/-- Claim C1 (amended): on a spawned process, `execute` returns normally
exactly when the exit code is zero and, when verbose capture is on, both
streams decode; every non-zero code (including the sentinel `-1` for an
interrupted process) panics, and so does a capture whose bytes are not
valid text even on a zero exit code. -/
theorem C1_execute_ok_iff (s : RunCmd) (st : Option Int) (ob eb : Option String) :
    (s.execute (ChildOutcome.ran st ob eb)).1 = Except.ok () ↔
      (runExitCode st = 0 ∧
       (s.verbose = true → ob.isSome = true ∧ eb.isSome = true)) := by
  cases hv : s.verbose <;> cases st <;> cases ob <;> cases eb <;>
    simp [RunCmd.execute, RunCmd.execute_output, captureActive, runExitCode,
      hv] <;>
    split <;> simp_all

/-- Claim C1, counterexample to the claim as stated: a verbose runner whose
command exits with code `0` but writes invalid UTF-8 to stdout makes
`execute` raise a fatal error, not return normally. -/
theorem C1_counterexample :
    runExitCode (some 0) = 0 ∧
    ((RunCmd.new "cat f").setVerbose.execute
        (ChildOutcome.ran (some 0) none (some ""))).1 =
      Except.error Panic.invalidUtf8 :=
  ⟨rfl, rfl⟩

/-- Claim C1, witness: a zero exit code on a fresh runner returns normally. -/
theorem C1_witness :
    ((RunCmd.new "c").execute
        (ChildOutcome.ran (some 0) (some "") (some ""))).1 = Except.ok () :=
  (C1_execute_ok_iff (RunCmd.new "c") (some 0) (some "") (some "")).2
    (by decide)

/-- Claim C4 (amended): as long as the `execute` mark has not been set,
enabling verbose changes neither the returned result nor the raised panic of
`execute_output` (capture is active either way); once the mark is set,
verbose re-enables capture and can change the stored streams. -/
theorem C4_verbose_no_change (s : RunCmd) (e : ChildOutcome)
    (h : s.executeFlag = false) :
    (s.setVerbose.execute_output e).1 = (s.execute_output e).1 := by
  rcases e with _ | ⟨status, ob, eb⟩
  · rfl
  · cases hv : s.verbose <;> cases status <;> cases ob <;> cases eb <;>
      simp [RunCmd.execute_output, RunCmd.setVerbose, captureActive, hv, h]

/-- Claim C4, counterexample to the claim as stated: after `execute` has
set the mark, the same command and child behaviour yield stored stdout `""`
non-verbose (stdio inherited) but `"hi"` verbose (captured). -/
theorem C4_counterexample :
    ((((RunCmd.new "c").execute
        (ChildOutcome.ran (some 0) (some "") (some ""))).2.execute_output
        (ChildOutcome.ran (some 0) (some "hi") (some ""))).1.map
          (fun r => r.stdout) = Except.ok "") ∧
    ((((RunCmd.new "c").setVerbose.execute
        (ChildOutcome.ran (some 0) (some "") (some ""))).2.execute_output
        (ChildOutcome.ran (some 0) (some "hi") (some ""))).1.map
          (fun r => r.stdout) = Except.ok "hi") :=
  ⟨rfl, rfl⟩

/-- Claim C4, witness: on a fresh runner, verbose does not change the
outcome of a run. -/
theorem C4_witness :
    (RunCmd.new "c").executeFlag = false ∧
    ((RunCmd.new "c").setVerbose.execute_output
        (ChildOutcome.ran (some 1) (some "a") (some "b"))).1 =
      ((RunCmd.new "c").execute_output
        (ChildOutcome.ran (some 1) (some "a") (some "b"))).1 :=
  ⟨rfl, C4_verbose_no_change (RunCmd.new "c")
    (ChildOutcome.ran (some 1) (some "a") (some "b")) rfl⟩

/-- Claim C5: on every runner reachable from a construction with command
string `c`, any result returned by `execute_output` carries exactly `c` in
its `command` field, and the stored command is still `c` afterwards. -/
theorem C5_cmd_preserved (c : String) (s : RunCmd) (e : ChildOutcome)
    (h : Reached c s) :
    (∀ rv, (s.execute_output e).1 = Except.ok rv → rv.cmd = c) ∧
    (s.execute_output e).2.retval.cmd = c :=
  ⟨fun rv hrv =>
    (execute_output_result_cmd s e rv hrv).trans (reached_cmd c s h),
   ((execute_output_preserves s e).2.2.2).trans (reached_cmd c s h)⟩

/-- Claim C5, witness: a fresh runner's captured run returns its own
command string. -/
theorem C5_witness :
    ((RunCmdOutput.mk "e" "" "" 0).cmd = "e") ∧
    (((RunCmd.new "e").execute_output
        (ChildOutcome.ran (some 0) (some "") (some ""))).2.retval.cmd = "e") :=
  ⟨(C5_cmd_preserved "e" (RunCmd.new "e")
      (ChildOutcome.ran (some 0) (some "") (some "")) (Reached.new "e")).1
      (RunCmdOutput.mk "e" "" "" 0) rfl,
   (C5_cmd_preserved "e" (RunCmd.new "e")
      (ChildOutcome.ran (some 0) (some "") (some "")) (Reached.new "e")).2⟩

/-- Claim C6: replaying `execute_output` with the same child behaviour
returns the same outcome as the first call, and every successful call
overwrites the runner's stored result with the returned one. -/
theorem C6_replay (s : RunCmd) (e : ChildOutcome) :
    ((s.execute_output e).2.execute_output e).1 = (s.execute_output e).1 ∧
    (∀ rv, (s.execute_output e).1 = Except.ok rv →
      (s.execute_output e).2.retval = rv) := by
  rcases e with _ | ⟨status, ob, eb⟩
  · exact ⟨rfl, by simp [RunCmd.execute_output]⟩
  · cases hv : s.verbose <;> cases he : s.executeFlag <;>
      cases status <;> cases ob <;> cases eb <;>
      simp [RunCmd.execute_output, captureActive, hv, he]

/-- Claim C6, witness: replaying an `echo`-like run on a fresh runner gives
the same outcome, and the stored result is the returned one. -/
theorem C6_witness :
    ((((RunCmd.new "c").execute_output
        (ChildOutcome.ran (some 0) (some "x") (some ""))).2.execute_output
        (ChildOutcome.ran (some 0) (some "x") (some "")))).1 =
      ((RunCmd.new "c").execute_output
        (ChildOutcome.ran (some 0) (some "x") (some ""))).1 ∧
    ((RunCmd.new "c").execute_output
        (ChildOutcome.ran (some 0) (some "x") (some ""))).2.retval =
      RunCmdOutput.mk "c" "x" "" 0 :=
  ⟨(C6_replay (RunCmd.new "c")
      (ChildOutcome.ran (some 0) (some "x") (some ""))).1,
   (C6_replay (RunCmd.new "c")
      (ChildOutcome.ran (some 0) (some "x") (some ""))).2
      (RunCmdOutput.mk "c" "x" "" 0) rfl⟩

/-- Claim C10: the `execute` mark is never cleared by any operation, and on
a marked non-verbose runner a normally-terminating run stores and returns
empty stdout/stderr (stdio inherited), while the same child behaviour on a
fresh runner is captured in full. -/
theorem C10_mark_sticky (s t : RunCmd) (c : Int) (ob eb : Option String)
    (o er : String) (e : ChildOutcome)
    (h1 : s.executeFlag = true) (h2 : s.verbose = false) :
    (s.execute_output (ChildOutcome.ran (some c) ob eb)).1 =
      Except.ok { s.retval with exitcode := c, stdout := "", stderr := "" } ∧
    (t.execute e).2.executeFlag = true ∧
    (t.execute_output e).2.executeFlag = t.executeFlag ∧
    t.setVerbose.executeFlag = t.executeFlag ∧
    t.setShell.executeFlag = t.executeFlag ∧
    ((RunCmd.new t.retval.cmd).execute_output
        (ChildOutcome.ran (some c) (some o) (some er))).1 =
      Except.ok (RunCmdOutput.mk t.retval.cmd o er c) := by
  refine ⟨?_, (execute_preserves t e).2.1,
    (execute_output_preserves t e).2.1, rfl, rfl, ?_⟩
  · simp [RunCmd.execute_output, captureActive, h1, h2]
  · simp [RunCmd.execute_output, captureActive, RunCmd.new]

/-- Claim C10, witness: a runner whose mark is set returns empty streams,
ignoring what the child wrote. -/
theorem C10_witness :
    (RunCmd.mk (RunCmdOutput.mk "c" "" "" 0) false true false).executeFlag
      = true ∧
    (RunCmd.mk (RunCmdOutput.mk "c" "" "" 0) false true false).verbose
      = false ∧
    ((RunCmd.mk (RunCmdOutput.mk "c" "" "" 0) false true false).execute_output
        (ChildOutcome.ran (some 5) (some "out") (some "err"))).1 =
      Except.ok (RunCmdOutput.mk "c" "" "" 5) :=
  ⟨rfl, rfl,
   (C10_mark_sticky (RunCmd.mk (RunCmdOutput.mk "c" "" "" 0) false true false)
      (RunCmd.new "z") 5 (some "out") (some "err") "a" "b"
      ChildOutcome.spawnError rfl rfl).1⟩

end RunCmdModel
